import Mathlib

/-!
Verification of the NPK soil-sensor Modbus RTU sketches.

The repository holds two Arduino sketches that poll a soil sensor
(nitrogen, phosphorus, potassium, electroconductivity, pH, temperature)
over RS485 using Modbus RTU function 0x03 (read holding registers):

* `sketch_jul23a.ino` hand-rolls the wire protocol: six hard-coded 8-byte
  request frames, a shared 11-byte `values[]` buffer, direct DE/RE pin
  control, and a fixed 7-byte read loop.
* `sketch_jul28a.ino` delegates the protocol to the ModbusMaster library
  and only supplies register addresses, pin toggling callbacks, and
  per-parameter scaling of the returned u16 register value.

This file shallowly embeds both sketches: byte arrays become `List Nat`
(each element a byte value), the shared `values[11]` buffer becomes a
total map `Nat → Nat` (the sketch only ever touches indices 0–6), pin
writes, delays, serial writes and serial reads become an explicit event
trace, and the `float` arithmetic of the second sketch is modelled
exactly over `ℚ` (the only operations are division by the constants 10
and 100 of a 16-bit integer, which ℚ represents exactly).
-/

set_option maxRecDepth 8000

namespace NPK

/-- Modelled from the spec: one shift-right step of the Modbus RTU CRC16
(the repository contains no CRC code; the algorithm is the spec's:
if the shifted-out bit is 1, shift right and XOR with polynomial 0xA001,
else just shift right). -/
def crcBit (crc : Nat) : Nat :=
  if crc % 2 = 1 then (crc / 2) ^^^ 0xA001 else crc / 2

/-- Modelled from the spec: process one byte of the Modbus CRC16 — XOR the
byte into the register, then perform 8 shift-right steps. -/
def crcByte (crc b : Nat) : Nat :=
  crcBit (crcBit (crcBit (crcBit (crcBit (crcBit (crcBit (crcBit (crc ^^^ b))))))))

/-- Modelled from the spec: Modbus RTU CRC16 of a byte sequence, initial
register 0xFFFF. -/
def crc16 (data : List Nat) : Nat :=
  data.foldl crcByte 0xFFFF

/-- A frame is CRC-valid when its trailing two bytes equal, little-endian
(low byte first), the CRC16 of all preceding bytes. -/
def crcOk (frame : List Nat) : Bool :=
  let n := frame.length
  let c := crc16 (frame.take (n - 2))
  frame.drop (n - 2) == [c % 256, c / 256]

/-- Observable events of one Modbus transaction as the sketches perform
it: digitalWrite on the DE or RE pin, a settle delay, the serial write of
a frame, and one serial read. -/
inductive Ev : Type
  | digitalWriteDE (high : Bool)
  | digitalWriteRE (high : Bool)
  | settleDelay
  | modWrite (frame : List Nat)
  | modRead
deriving DecidableEq

/-- SoftwareSerial `read()` on a pending byte stream: returns the next
available byte, or −1 when none is available; sketch_jul23a stores the
result into a `byte`, so −1 becomes 0xFF. -/
def serialRead : List Nat → Nat × List Nat
  | [] => (0xFF, [])
  | b :: rest => (b, rest)

namespace Sketch23

/-- Hard-coded nitrogen request frame of sketch_jul23a. -/
def nitro : List Nat := [0x01, 0x03, 0x00, 0x1e, 0x00, 0x01, 0xe4, 0x0c]

/-- Hard-coded phosphorus request frame of sketch_jul23a. -/
def phos : List Nat := [0x01, 0x03, 0x00, 0x1f, 0x00, 0x01, 0xb5, 0xcc]

/-- Hard-coded potassium request frame of sketch_jul23a. -/
def pota : List Nat := [0x01, 0x03, 0x00, 0x20, 0x00, 0x01, 0x85, 0xc0]

/-- Hard-coded electroconductivity request frame of sketch_jul23a. -/
def ec : List Nat := [0x01, 0x03, 0x00, 0x15, 0x00, 0x01, 0x95, 0xce]

/-- Hard-coded pH request frame of sketch_jul23a. -/
def ph : List Nat := [0x01, 0x03, 0x00, 0x06, 0x00, 0x01, 0x64, 0x0b]

/-- Hard-coded temperature request frame of sketch_jul23a (register count
field 0x00 0x02, two registers). -/
def temp : List Nat := [0x01, 0x03, 0x00, 0x12, 0x00, 0x02, 0x64, 0x0e]

/-- Mutable state of sketch_jul23a: the shared global `byte values[11]`
buffer (modelled as a total map; the sketch only touches indices 0–6) and
the DE and RE output pins. -/
structure S23 where
  values : Nat → Nat
  de : Bool
  re : Bool

/-- Result of running one reading function: the returned byte, the final
sketch state, the bytes left unread on the serial line, and the event
trace. -/
structure Outcome where
  ret : Nat
  st : S23
  rx : List Nat
  trace : List Ev

/-- The `for (byte i = 0; i < 7; i++) values[i] = mod.read();` loop:
one `mod.read()` into `values[i]` for each index in the list. -/
def readLoop : List Nat → (Nat → Nat) → List Nat → ((Nat → Nat) × List Nat × List Ev)
  | [], values, rx => (values, rx, [])
  | i :: is, values, rx =>
    let p := serialRead rx
    let q := readLoop is (Function.update values i p.1) p.2
    (q.1, q.2.1, Ev.modRead :: q.2.2)

/-- Events every reading function emits before testing the write count:
DE high, RE high, delay(10), mod.write(frame, 8). -/
def preTrace (frame : List Nat) : List Ev :=
  [Ev.digitalWriteDE true, Ev.digitalWriteRE true, Ev.settleDelay, Ev.modWrite frame]

/-- Body shared verbatim by the six reading functions of sketch_jul23a:
set DE and RE high, delay 10 ms, write the 8-byte frame; if `mod.write`
returned 8, set DE and RE low and read 7 bytes into `values[0..6]`;
in every case return `values[4]`. `writeResult` is what `mod.write`
reports. -/
def readSensor (frame : List Nat) (writeResult : Nat) (st : S23) (rx : List Nat) : Outcome :=
  if writeResult = 8 then
    let q := readLoop [0, 1, 2, 3, 4, 5, 6] st.values rx
    { ret := q.1 4
      st := { values := q.1, de := false, re := false }
      rx := q.2.1
      trace := preTrace frame ++ [Ev.digitalWriteDE false, Ev.digitalWriteRE false] ++ q.2.2 }
  else
    { ret := st.values 4
      st := { values := st.values, de := true, re := true }
      rx := rx
      trace := preTrace frame }

/-- The `nitrogen()` function of sketch_jul23a. -/
def nitrogen (w : Nat) (st : S23) (rx : List Nat) : Outcome := readSensor nitro w st rx

/-- The `phosphorous()` function of sketch_jul23a. -/
def phosphorous (w : Nat) (st : S23) (rx : List Nat) : Outcome := readSensor phos w st rx

/-- The `potassium()` function of sketch_jul23a. -/
def potassium (w : Nat) (st : S23) (rx : List Nat) : Outcome := readSensor pota w st rx

/-- The `electroconductivity()` function of sketch_jul23a. -/
def electroconductivity (w : Nat) (st : S23) (rx : List Nat) : Outcome := readSensor ec w st rx

/-- The `pH()` function of sketch_jul23a. -/
def pHRead (w : Nat) (st : S23) (rx : List Nat) : Outcome := readSensor ph w st rx

/-- The `temperature()` function of sketch_jul23a. -/
def temperature (w : Nat) (st : S23) (rx : List Nat) : Outcome := readSensor temp w st rx

/-- A zeroed initial state: `values[]` all zero, pins low (receive mode,
the state after `setup()`). -/
def st0 : S23 := { values := fun _ => 0, de := false, re := false }

/-- A state whose `values[4]` holds 99, as left behind by some earlier
transaction. -/
def st99 : S23 := { values := fun i => if i = 4 then 99 else 0, de := false, re := false }

end Sketch23

/-- The spec's example successful response for a one-register read:
01 03 02 00 47 f8 76 (register value 0x0047 = 71, valid CRC). -/
def exResp : List Nat := [0x01, 0x03, 0x02, 0x00, 0x47, 0xf8, 0x76]

/-- A CRC-valid one-register response whose payload high byte is nonzero:
01 03 02 01 47 f9 e6 (register value 0x0147 = 327). -/
def exRespHi : List Nat := [0x01, 0x03, 0x02, 0x01, 0x47, 0xf9, 0xe6]

/-- A response carrying register value 0x0047 whose trailing CRC bytes are
wrong (zeroed). -/
def badResp : List Nat := [0x01, 0x03, 0x02, 0x00, 0x47, 0x00, 0x00]

/-- Modelled from the spec: on a successful parse, extract `count`
big-endian u16 register values from the response payload, which starts at
byte index 3 (after slave address, function code and byte count). -/
def specRegisters (count : Nat) (resp : List Nat) : List Nat :=
  (List.range count).map fun i => 256 * resp.getD (3 + 2 * i) 0 + resp.getD (4 + 2 * i) 0

/-- Logical read-holding-registers request descriptor. -/
structure Request where
  slave : Nat
  fc : Nat
  start : Nat
  count : Nat
deriving DecidableEq

/-- Decode a raw 8-byte request frame into its logical descriptor:
slave address, function code, big-endian start register, big-endian
register count (the CRC trailer is not part of the descriptor). -/
def decodeRequest (f : List Nat) : Request :=
  { slave := f.getD 0 0
    fc := f.getD 1 0
    start := 256 * f.getD 2 0 + f.getD 3 0
    count := 256 * f.getD 4 0 + f.getD 5 0 }

namespace Sketch28

/-- Modelled from the spec: the request that the ModbusMaster library
(not part of this repository) issues for `node.readHoldingRegisters(addr,
n)` — slave address 1 from `node.begin(1, modbusSerial)`, fixed function
code 0x03 (read holding registers), with the caller's start register and
register count. -/
def readHoldingRequest (addr n : Nat) : Request :=
  { slave := 1, fc := 0x03, start := addr, count := n }

/-- Request issued by `readNitrogen()` of sketch_jul28a:
`node.readHoldingRegisters(0x1E, 1)`. -/
def nitrogenRequest : Request := readHoldingRequest 0x1E 1

/-- Request issued by `readPhosphorous()`: `node.readHoldingRegisters(0x1F, 1)`. -/
def phosphorousRequest : Request := readHoldingRequest 0x1F 1

/-- Request issued by `readPotassium()`: `node.readHoldingRegisters(0x20, 1)`. -/
def potassiumRequest : Request := readHoldingRequest 0x20 1

/-- Request issued by `readElectroconductivity()`: `node.readHoldingRegisters(0x15, 1)`. -/
def ecRequest : Request := readHoldingRequest 0x15 1

/-- Request issued by `readPH()`: `node.readHoldingRegisters(0x06, 1)`. -/
def phRequest : Request := readHoldingRequest 0x06 1

/-- Request issued by `readTemperature()`: `node.readHoldingRegisters(0x12, 1)`. -/
def temperatureRequest : Request := readHoldingRequest 0x12 1

/-- Outcome of one `node.readHoldingRegisters` call as seen by the
sketch: either success with the u16 register value available through
`node.getResponseBuffer(0)`, or failure with a Modbus error code. -/
inductive MbResult : Type
  | success (raw : Nat)
  | failure (code : Nat)

/-- The `readNitrogen()` function of sketch_jul28a: on success returns
`(float)rawValue`, on error returns −1.0. Floats are modelled over ℚ. -/
def readNitrogen : MbResult → ℚ
  | .success raw => (raw : ℚ)
  | .failure _ => -1

/-- The `readPhosphorous()` function of sketch_jul28a. -/
def readPhosphorous : MbResult → ℚ
  | .success raw => (raw : ℚ)
  | .failure _ => -1

/-- The `readPotassium()` function of sketch_jul28a. -/
def readPotassium : MbResult → ℚ
  | .success raw => (raw : ℚ)
  | .failure _ => -1

/-- The `readElectroconductivity()` function of sketch_jul28a. -/
def readElectroconductivity : MbResult → ℚ
  | .success raw => (raw : ℚ)
  | .failure _ => -1

/-- The `readPH()` function of sketch_jul28a: `(float)rawValue / 100.0`
on success. -/
def readPH : MbResult → ℚ
  | .success raw => (raw : ℚ) / 100
  | .failure _ => -1

/-- The `readTemperature()` function of sketch_jul28a:
`(float)rawValue / 10.0` on success. -/
def readTemperature : MbResult → ℚ
  | .success raw => (raw : ℚ) / 10
  | .failure _ => -1

/-- The pin events of `preTransmission()` of sketch_jul28a: RE high then
DE high — and nothing else; in particular no settle delay. -/
def preTransmission : List Ev :=
  [Ev.digitalWriteRE true, Ev.digitalWriteDE true]

/-- The pin events of `postTransmission()` of sketch_jul28a: DE low then
RE low. -/
def postTransmission : List Ev :=
  [Ev.digitalWriteDE false, Ev.digitalWriteRE false]

end Sketch28

end NPK

/-- C1: each of the six hard-coded request frames of sketch_jul23a is 8
bytes long, starts with slave address 0x01 and function code 0x03, and its
trailing two bytes equal, in little-endian order, the Modbus CRC16
(initial 0xFFFF, polynomial 0xA001, bit-reflected, 8 shift-right steps per
byte) of the first six bytes. -/
theorem NPK.c1_request_frames_crc_valid :
    (Sketch23.nitro.length = 8 ∧ Sketch23.nitro.take 2 = [0x01, 0x03] ∧
      crcOk Sketch23.nitro = true) ∧
    (Sketch23.phos.length = 8 ∧ Sketch23.phos.take 2 = [0x01, 0x03] ∧
      crcOk Sketch23.phos = true) ∧
    (Sketch23.pota.length = 8 ∧ Sketch23.pota.take 2 = [0x01, 0x03] ∧
      crcOk Sketch23.pota = true) ∧
    (Sketch23.ec.length = 8 ∧ Sketch23.ec.take 2 = [0x01, 0x03] ∧
      crcOk Sketch23.ec = true) ∧
    (Sketch23.ph.length = 8 ∧ Sketch23.ph.take 2 = [0x01, 0x03] ∧
      crcOk Sketch23.ph = true) ∧
    (Sketch23.temp.length = 8 ∧ Sketch23.temp.take 2 = [0x01, 0x03] ∧
      crcOk Sketch23.temp = true) := by
  decide

/-- Helper: the read loop emits one modRead event per index. -/
theorem NPK.readLoop_count_modRead (idxs : List Nat) (values : Nat → Nat) (rx : List Nat) :
    ((Sketch23.readLoop idxs values rx).2.2).count Ev.modRead = idxs.length := by
  induction idxs generalizing values rx with
  | nil => simp [Sketch23.readLoop]
  | cons i is ih => simp [Sketch23.readLoop, ih]

/-- Helper: every event the read loop emits is a modRead. -/
theorem NPK.readLoop_trace_modRead (idxs : List Nat) (values : Nat → Nat) (rx : List Nat) :
    ∀ e ∈ (Sketch23.readLoop idxs values rx).2.2, e = Ev.modRead := by
  induction idxs generalizing values rx with
  | nil => simp [Sketch23.readLoop]
  | cons i is ih =>
    intro e he
    simp only [Sketch23.readLoop, List.mem_cons] at he
    rcases he with h | h
    · exact h
    · exact ih _ _ e h

/-- Helper: after the seven-byte read loop, `values[4]` holds the fifth
byte of the received stream, or 0xFF when fewer than five bytes were
available. -/
theorem NPK.readLoop_values_four (values : Nat → Nat) (rx : List Nat) :
    (Sketch23.readLoop [0, 1, 2, 3, 4, 5, 6] values rx).1 4 = rx.getD 4 0xFF := by
  match rx with
  | [] => simp [Sketch23.readLoop, serialRead, Function.update_apply]
  | [a] => simp [Sketch23.readLoop, serialRead, Function.update_apply]
  | [a, b] => simp [Sketch23.readLoop, serialRead, Function.update_apply]
  | [a, b, c] => simp [Sketch23.readLoop, serialRead, Function.update_apply]
  | [a, b, c, d] => simp [Sketch23.readLoop, serialRead, Function.update_apply]
  | a :: b :: c :: d :: e :: rest =>
    simp [Sketch23.readLoop, serialRead, Function.update_apply]

/-- Helper: a nonnegative rational is not −1. -/
theorem NPK.nonneg_ne_neg_one (q : ℚ) (hq : 0 ≤ q) : q ≠ -1 := by
  intro h
  rw [h] at hq
  norm_num at hq

/-- C2: on the spec's example successful response 01 03 02 00 47 f8 76 the
big-endian extraction yields register value 0x0047 = 71; sketch_jul23a's
`nitrogen()` also returns 71 there, but only because the payload high byte
is zero — on the CRC-valid response 01 03 02 01 47 f9 e6 the full
big-endian register value is 0x0147 = 327 while `nitrogen()` still
returns only the low payload byte `values[4]` = 0x47 = 71. -/
theorem NPK.c2_low_byte_only :
    specRegisters 1 exResp = [71] ∧
    (Sketch23.nitrogen 8 Sketch23.st0 exResp).ret = 71 ∧
    crcOk exRespHi = true ∧
    specRegisters 1 exRespHi = [327] ∧
    (Sketch23.nitrogen 8 Sketch23.st0 exRespHi).ret = 71 ∧
    (71 : Nat) ≠ 327 := by
  decide

/-- C3 counterexample: sketch_jul23a's `nitrogen()` accepts a register
value from a frame whose CRC is invalid — on response 01 03 02 00 47 00 00
(zeroed CRC trailer, `crcOk` false) it still returns the payload byte
0x47 = 71, so received responses are not CRC-checked before their values
are accepted. -/
theorem NPK.c3_counterexample :
    crcOk badResp = false ∧
    (Sketch23.nitrogen 8 Sketch23.st0 badResp).ret = 71 := by
  decide

/-- C3 amended: the reading functions of sketch_jul23a perform no CRC
verification at all — whenever the write reports 8 bytes, the returned
value is the fifth received byte (0xFF when fewer than five bytes
arrived), no matter what the trailing CRC bytes of the response are. -/
theorem NPK.c3_amended_no_crc_check (f : List Nat) (st : Sketch23.S23) (rx : List Nat) :
    (Sketch23.readSensor f 8 st rx).ret = rx.getD 4 0xFF := by
  have h := readLoop_values_four st.values rx
  simpa [Sketch23.readSensor] using h

/-- C4: sketch_jul28a's scaling layer maps a raw u16 register value to
raw × 0.01 for pH (725 ↦ 7.25), raw × 0.1 for Temperature (250 ↦ 25.0),
and raw × 1.0 + 0 for Nitrogen, Phosphorus, Potassium and
Electroconductivity (320 ↦ 320.0 unchanged); floats are modelled exactly
over ℚ. -/
theorem NPK.c4_scaling (raw : Nat) :
    Sketch28.readPH (.success raw) = (raw : ℚ) * (1 / 100) + 0 ∧
    Sketch28.readTemperature (.success raw) = (raw : ℚ) * (1 / 10) + 0 ∧
    Sketch28.readNitrogen (.success raw) = (raw : ℚ) * 1 + 0 ∧
    Sketch28.readPhosphorous (.success raw) = (raw : ℚ) * 1 + 0 ∧
    Sketch28.readPotassium (.success raw) = (raw : ℚ) * 1 + 0 ∧
    Sketch28.readElectroconductivity (.success raw) = (raw : ℚ) * 1 + 0 ∧
    Sketch28.readPH (.success 725) = 7.25 ∧
    Sketch28.readTemperature (.success 250) = 25 ∧
    Sketch28.readNitrogen (.success 320) = 320 := by
  refine ⟨?_, ?_, ?_, ?_, ?_, ?_, ?_, ?_, ?_⟩ <;>
    simp [Sketch28.readPH, Sketch28.readTemperature, Sketch28.readNitrogen,
      Sketch28.readPhosphorous, Sketch28.readPotassium,
      Sketch28.readElectroconductivity] <;>
    norm_num <;> ring

/-- C5 counterexample: when `mod.write` reports 5 of 8 bytes,
sketch_jul23a's `nitrogen()` does not fail with any error — it returns
the stale byte 99 left in `values[4]`, reads nothing from the link, and
leaves the transceiver in transmit mode (the function's return type is a
plain byte, so no `Error::ShortWrite` can reach the caller). -/
theorem NPK.c5_counterexample :
    (Sketch23.nitrogen 5 Sketch23.st99 exResp).ret = 99 ∧
    (Sketch23.nitrogen 5 Sketch23.st99 exResp).rx = exResp ∧
    (Sketch23.nitrogen 5 Sketch23.st99 exResp).st.de = true ∧
    (Sketch23.nitrogen 5 Sketch23.st99 exResp).st.re = true := by
  decide

/-- C5 amended: when the link write reports any count other than 8,
sketch_jul23a skips the receive phase entirely — no bytes are read, the
buffer is unchanged, DE and RE are left high — and the function proceeds
to return the stale `values[4]` byte as if it were a reading; no error is
surfaced. -/
theorem NPK.c5_amended_short_write (f : List Nat) (w : Nat) (h : w ≠ 8)
    (st : Sketch23.S23) (rx : List Nat) :
    (Sketch23.readSensor f w st rx).ret = st.values 4 ∧
    (Sketch23.readSensor f w st rx).st.values = st.values ∧
    (Sketch23.readSensor f w st rx).st.de = true ∧
    (Sketch23.readSensor f w st rx).st.re = true ∧
    (Sketch23.readSensor f w st rx).rx = rx ∧
    (Sketch23.readSensor f w st rx).trace = Sketch23.preTrace f := by
  simp [Sketch23.readSensor, h]

/-- C5 amended, witness at frame `nitro`, write count 5. -/
theorem NPK.c5_amended_short_write_witness :
    (Sketch23.readSensor Sketch23.nitro 5 Sketch23.st99 exResp).ret =
        Sketch23.st99.values 4 ∧
    (Sketch23.readSensor Sketch23.nitro 5 Sketch23.st99 exResp).st.values =
        Sketch23.st99.values ∧
    (Sketch23.readSensor Sketch23.nitro 5 Sketch23.st99 exResp).st.de = true ∧
    (Sketch23.readSensor Sketch23.nitro 5 Sketch23.st99 exResp).st.re = true ∧
    (Sketch23.readSensor Sketch23.nitro 5 Sketch23.st99 exResp).rx = exResp ∧
    (Sketch23.readSensor Sketch23.nitro 5 Sketch23.st99 exResp).trace =
        Sketch23.preTrace Sketch23.nitro :=
  c5_amended_short_write Sketch23.nitro 5 (by decide) Sketch23.st99 exResp

/-- C6 counterexample: sketch_jul23a's `temperature()` requests two
registers (expected response length 5 + 2×2 = 9 bytes) yet its loop
performs exactly 7 reads; and with a link that delivers zero bytes it
returns the byte 0xFF (SoftwareSerial's −1 stored into a byte) as a
reading instead of any `Error::Timeout`. -/
theorem NPK.c6_counterexample :
    (decodeRequest Sketch23.temp).count = 2 ∧
    5 + 2 * (decodeRequest Sketch23.temp).count = 9 ∧
    (Sketch23.temperature 8 Sketch23.st0 []).trace.count Ev.modRead = 7 ∧
    (7 : Nat) ≠ 9 ∧
    (Sketch23.temperature 8 Sketch23.st0 []).ret = 0xFF := by
  decide

/-- C6 amended: after a write reported as complete, sketch_jul23a always
performs exactly 7 immediate reads — there is no wait for the expected
response length (9 bytes for the two-register temperature request) and no
timeout; when no bytes are available the returned reading is the filler
byte 0xFF, never an error. -/
theorem NPK.c6_amended_fixed_reads (st : Sketch23.S23) (rx : List Nat) :
    (Sketch23.temperature 8 st rx).trace.count Ev.modRead = 7 ∧
    (Sketch23.temperature 8 st []).ret = 0xFF := by
  constructor
  · have h := readLoop_count_modRead [0, 1, 2, 3, 4, 5, 6] st.values rx
    simp [Sketch23.temperature, Sketch23.readSensor, Sketch23.preTrace, h]
  · have h := readLoop_values_four st.values []
    simpa [Sketch23.temperature, Sketch23.readSensor] using h

/-- C7 counterexample: when `mod.write` reports 5 bytes, sketch_jul23a's
`nitrogen()` never switches back to receive — the whole trace is DE high,
RE high, settle delay, frame write, with zero DE-low or RE-low events —
so the switch to receive does not happen exactly once in every
transaction. -/
theorem NPK.c7_counterexample :
    (Sketch23.nitrogen 5 Sketch23.st0 []).trace = Sketch23.preTrace Sketch23.nitro ∧
    ((Sketch23.nitrogen 5 Sketch23.st0 []).trace.count (Ev.digitalWriteDE false)) = 0 ∧
    ((Sketch23.nitrogen 5 Sketch23.st0 []).trace.count (Ev.digitalWriteRE false)) = 0 := by
  decide

/-- C7 amended: in sketch_jul23a the settle delay always completes before
the frame write, and on the successful-write path the switch to receive
(DE low, RE low) happens exactly once, strictly after the frame write and
before every read; but on a short write the switch to receive never
happens, and sketch_jul28a's `preTransmission()` contains no settle delay
at all. -/
theorem NPK.c7_amended_direction (f : List Nat) (w : Nat) (st : Sketch23.S23)
    (rx : List Nat) :
    Sketch23.preTrace f =
      [Ev.digitalWriteDE true, Ev.digitalWriteRE true, Ev.settleDelay, Ev.modWrite f] ∧
    (Sketch23.readSensor f 8 st rx).trace =
      Sketch23.preTrace f ++ [Ev.digitalWriteDE false, Ev.digitalWriteRE false] ++
        (Sketch23.readLoop [0, 1, 2, 3, 4, 5, 6] st.values rx).2.2 ∧
    (∀ e ∈ (Sketch23.readLoop [0, 1, 2, 3, 4, 5, 6] st.values rx).2.2,
      e = Ev.modRead) ∧
    (w ≠ 8 → (Sketch23.readSensor f w st rx).trace = Sketch23.preTrace f) ∧
    Sketch28.preTransmission.count Ev.settleDelay = 0 := by
  refine ⟨rfl, by simp [Sketch23.readSensor], readLoop_trace_modRead _ _ _, ?_, by decide⟩
  intro h
  simp [Sketch23.readSensor, h]

/-- C7 amended, witness at frame `nitro`, write count 5, empty link. -/
theorem NPK.c7_amended_direction_witness :
    (Sketch23.readSensor Sketch23.nitro 5 Sketch23.st0 []).trace =
      Sketch23.preTrace Sketch23.nitro :=
  (c7_amended_direction Sketch23.nitro 5 Sketch23.st0 []).2.2.2.1 (by decide)

/-- C8: the two sketches issue the same logical read-holding-registers
request (slave 1, function 0x03, same start register and count) for
Nitrogen, Phosphorus, Potassium, Electroconductivity and pH, but not for
Temperature: sketch_jul23a's `temp` frame carries count field 0x00 0x02
while sketch_jul28a's `readTemperature()` requests 1 register at the same
start register 0x12. -/
theorem NPK.c8_request_equivalence :
    decodeRequest Sketch23.nitro = Sketch28.nitrogenRequest ∧
    decodeRequest Sketch23.phos = Sketch28.phosphorousRequest ∧
    decodeRequest Sketch23.pota = Sketch28.potassiumRequest ∧
    decodeRequest Sketch23.ec = Sketch28.ecRequest ∧
    decodeRequest Sketch23.ph = Sketch28.phRequest ∧
    decodeRequest Sketch23.temp ≠ Sketch28.temperatureRequest ∧
    (decodeRequest Sketch23.temp).count = 2 ∧
    Sketch28.temperatureRequest.count = 1 ∧
    (decodeRequest Sketch23.temp).start = 0x12 ∧
    Sketch28.temperatureRequest.start = 0x12 ∧
    (decodeRequest Sketch23.temp).slave = Sketch28.temperatureRequest.slave ∧
    (decodeRequest Sketch23.temp).fc = Sketch28.temperatureRequest.fc := by
  decide

/-- C9: sketch_jul23a's reading functions share the one global `values[]`
buffer; after a successful `phosphorous()` transaction, a `nitrogen()`
call whose `mod.write` reports any count other than 8 performs no read,
leaves DE and RE high (transmit mode), and still returns `values[4]` —
the payload byte that the earlier phosphorus transaction stored —
indistinguishable to the caller from a fresh nitrogen reading. -/
theorem NPK.c9_stale_buffer (w : Nat) (h : w ≠ 8) (st : Sketch23.S23)
    (rxP rxN : List Nat) :
    (Sketch23.nitrogen w (Sketch23.phosphorous 8 st rxP).st rxN).ret =
      rxP.getD 4 0xFF ∧
    (Sketch23.nitrogen w (Sketch23.phosphorous 8 st rxP).st rxN).st.de = true ∧
    (Sketch23.nitrogen w (Sketch23.phosphorous 8 st rxP).st rxN).st.re = true ∧
    (Sketch23.nitrogen w (Sketch23.phosphorous 8 st rxP).st rxN).rx = rxN ∧
    (Sketch23.nitrogen w (Sketch23.phosphorous 8 st rxP).st rxN).trace.count
      Ev.modRead = 0 := by
  have h4 := readLoop_values_four st.values rxP
  refine ⟨?_, ?_, ?_, ?_, ?_⟩ <;>
    simp [Sketch23.nitrogen, Sketch23.phosphorous, Sketch23.readSensor, h,
      Sketch23.preTrace, h4]

/-- C9, witness: phosphorus reads the example response (payload byte 71),
then nitrogen with write count 0 returns that same stale 71. -/
theorem NPK.c9_stale_buffer_witness :
    (Sketch23.nitrogen 0 (Sketch23.phosphorous 8 Sketch23.st0 exResp).st []).ret =
      exResp.getD 4 0xFF ∧
    (Sketch23.nitrogen 0 (Sketch23.phosphorous 8 Sketch23.st0 exResp).st []).st.de =
      true ∧
    (Sketch23.nitrogen 0 (Sketch23.phosphorous 8 Sketch23.st0 exResp).st []).st.re =
      true ∧
    (Sketch23.nitrogen 0 (Sketch23.phosphorous 8 Sketch23.st0 exResp).st []).rx = [] ∧
    (Sketch23.nitrogen 0 (Sketch23.phosphorous 8 Sketch23.st0 exResp).st []).trace.count
      Ev.modRead = 0 :=
  c9_stale_buffer 0 (by decide) Sketch23.st0 exResp []

/-- C10: in sketch_jul28a every successful readX call returns a
nonnegative value (a u16 register scaled by 1, 1/100 or 1/10), hence
never the sentinel −1.0, while every failed call returns exactly −1.0 —
so the caller's `value != -1.0` check exactly separates success from
failure. -/
theorem NPK.c10_sentinel_separates (raw code : Nat) :
    (0 ≤ Sketch28.readNitrogen (.success raw) ∧
      Sketch28.readNitrogen (.success raw) ≠ -1 ∧
      Sketch28.readNitrogen (.failure code) = -1) ∧
    (0 ≤ Sketch28.readPhosphorous (.success raw) ∧
      Sketch28.readPhosphorous (.success raw) ≠ -1 ∧
      Sketch28.readPhosphorous (.failure code) = -1) ∧
    (0 ≤ Sketch28.readPotassium (.success raw) ∧
      Sketch28.readPotassium (.success raw) ≠ -1 ∧
      Sketch28.readPotassium (.failure code) = -1) ∧
    (0 ≤ Sketch28.readElectroconductivity (.success raw) ∧
      Sketch28.readElectroconductivity (.success raw) ≠ -1 ∧
      Sketch28.readElectroconductivity (.failure code) = -1) ∧
    (0 ≤ Sketch28.readPH (.success raw) ∧
      Sketch28.readPH (.success raw) ≠ -1 ∧
      Sketch28.readPH (.failure code) = -1) ∧
    (0 ≤ Sketch28.readTemperature (.success raw) ∧
      Sketch28.readTemperature (.success raw) ≠ -1 ∧
      Sketch28.readTemperature (.failure code) = -1) := by
  have hnn : (0 : ℚ) ≤ (raw : ℚ) := Nat.cast_nonneg raw
  have h100 : (0 : ℚ) ≤ (raw : ℚ) / 100 := by positivity
  have h10 : (0 : ℚ) ≤ (raw : ℚ) / 10 := by positivity
  refine ⟨⟨hnn, nonneg_ne_neg_one _ hnn, rfl⟩, ⟨hnn, nonneg_ne_neg_one _ hnn, rfl⟩,
    ⟨hnn, nonneg_ne_neg_one _ hnn, rfl⟩, ⟨hnn, nonneg_ne_neg_one _ hnn, rfl⟩,
    ⟨h100, nonneg_ne_neg_one _ h100, rfl⟩, ⟨h10, nonneg_ne_neg_one _ h10, rfl⟩⟩
